import Mathlib

/-!
Shallow embedding of the loclock backend access-decision engine.

Source files embedded:
  * `app/core/geo.py` — `calculate_distance` (haversine) and `is_within_radius`;
  * `app/api/links.py` — `verify_location`, `get_public_link_info`,
    `restore_link`, `update_link`;
  * `app/models/link.py` — the `Link` and `AccessLog` records.

Floating-point values are modelled as real numbers; database rows as lists;
HTTP exceptions as an `Except` error branch carrying status and detail.
-/

noncomputable section

/-- A row of the `links` table (`app/models/link.py`). -/
structure Link where
  id : Nat
  short_code : String
  title : Option String
  target_url : String
  center_lat : ℝ
  center_lng : ℝ
  radius_meters : Int
  location_name : Option String
  contact_wechat : Option String
  expire_at : Option Int
  max_visits : Option Int
  created_by : Nat
  is_active : Bool
  is_banned : Bool
  is_deleted : Bool
  visit_count : Nat
  success_count : Nat
  denied_count : Nat

/-- A row of the `access_logs` table (`app/models/link.py`). -/
structure AccessLog where
  link_id : Nat
  visitor_lat : ℝ
  visitor_lng : ℝ
  distance_meters : ℝ
  access_granted : Bool
  user_agent : Option String
  ip_address : Option String

/-- The persistent store visible to the handlers: links plus the append-only
access log. -/
structure DBState where
  links : List Link
  logs : List AccessLog

/-- An HTTP error raised by a handler (`HTTPException`): status code and
detail message. -/
structure HTTPError where
  status : Nat
  detail : String
deriving DecidableEq

/-- The requesting admin user, as far as the link handlers consult it. -/
structure User where
  id : Nat
  role : String

/-- The `LocationVerifyResponse` schema (`app/schemas/link.py`). -/
structure VerifyResponse where
  allowed : Bool
  target_url : Option String
  distance : ℝ
  radius : Int
  message : Option String
  contact_wechat : Option String
  title : Option String

/-- The `PublicLinkInfo` schema (`app/schemas/link.py`). -/
structure PublicLinkInfo where
  short_code : String
  title : Option String
  is_active : Bool
  location_name : Option String
deriving DecidableEq

/-- The `LinkUpdate` schema (`app/schemas/link.py`): every field optional,
absent fields leave the stored value alone. -/
structure LinkUpdate where
  title : Option String
  target_url : Option String
  center_lat : Option ℝ
  center_lng : Option ℝ
  radius_meters : Option Int
  location_name : Option String
  contact_wechat : Option String
  is_active : Option Bool
  expire_at : Option Int
  max_visits : Option Int

/-- Python's `math.radians`: degrees to radians. -/
def radians (x : ℝ) : ℝ := x * Real.pi / 180

/-- Python's `math.atan2` on real arguments. -/
def atan2 (y x : ℝ) : ℝ :=
  if 0 < x then Real.arctan (y / x)
  else if x < 0 then
    (if 0 ≤ y then Real.arctan (y / x) + Real.pi else Real.arctan (y / x) - Real.pi)
  else
    (if 0 < y then Real.pi / 2 else if y < 0 then -(Real.pi / 2) else 0)

/-- `calculate_distance` from `app/core/geo.py`: haversine great-circle
distance in meters, Earth radius 6,371,000 m. -/
def calculate_distance (lat1 lng1 lat2 lng2 : ℝ) : ℝ :=
  let R : ℝ := 6371000
  let phi1 := radians lat1
  let phi2 := radians lat2
  let dphi := radians (lat2 - lat1)
  let dlam := radians (lng2 - lng1)
  let a := Real.sin (dphi / 2) ^ 2 + Real.cos phi1 * Real.cos phi2 * Real.sin (dlam / 2) ^ 2
  let c := 2 * atan2 (Real.sqrt a) (Real.sqrt (1 - a))
  R * c

/-- `is_within_radius` from `app/core/geo.py`: returns the allow verdict
`distance <= radius_meters` together with the computed distance. -/
def is_within_radius (visitor_lat visitor_lng center_lat center_lng radius_meters : ℝ) :
    Bool × ℝ :=
  let distance := calculate_distance visitor_lat visitor_lng center_lat center_lng
  (decide (distance ≤ radius_meters), distance)

/-- Python's `round(x, 2)` as used on distances before persistence/response
(modelled with mathematical rounding of `100 * x`). -/
def round2 (x : ℝ) : ℝ := ((round (x * 100) : Int) : ℝ) / 100

/-- The short-code lookup `db.query(Link).filter(Link.short_code == code).first()`. -/
def find_link (links : List Link) (code : String) : Option Link :=
  links.find? (fun l => l.short_code == code)

/-- The counter update performed by `verify_location` (lines 474–479 of
`app/api/links.py`): `visit_count += 1` and exactly one of
`success_count`/`denied_count` incremented according to `allowed`. -/
def record_counters (l : Link) (allowed : Bool) : Link :=
  { l with
    visit_count := l.visit_count + 1
    success_count := if allowed then l.success_count + 1 else l.success_count
    denied_count := if allowed then l.denied_count else l.denied_count + 1 }

/-- Writing the mutated ORM row back to the store: replace the row with the
given short code. -/
def update_by_code (links : List Link) (code : String) (l : Link) : List Link :=
  links.map (fun x => if x.short_code == code then l else x)

/-- `verify_location` from `app/api/links.py` (lines 433–510): look up the
short code (absent or soft-deleted → 404), reject inactive links (403, the
detail depending on `is_banned`), otherwise run the geofence check, increment
the counters, append one access log entry and assemble the response. -/
def verify_location (db : DBState) (code : String) (latitude longitude : ℝ)
    (user_agent ip_address : Option String) :
    Except HTTPError VerifyResponse × DBState :=
  match find_link db.links code with
  | none => (Except.error ⟨404, "短链接不存在"⟩, db)
  | some link =>
    if link.is_deleted then (Except.error ⟨404, "短链接不存在"⟩, db)
    else if link.is_active = false then
      (Except.error ⟨403, if link.is_banned then "此链接已被管理员封禁" else "此链接已被禁用"⟩, db)
    else
      let p := is_within_radius latitude longitude link.center_lat link.center_lng
        (link.radius_meters : ℝ)
      let allowed := p.1
      let distance := p.2
      let link2 := record_counters link allowed
      let entry : AccessLog :=
        ⟨link.id, latitude, longitude, round2 distance, allowed, user_agent, ip_address⟩
      (Except.ok
        { allowed := allowed
          target_url := if allowed then some link.target_url else none
          distance := round2 distance
          radius := link.radius_meters
          message := if allowed then none else some "您不在允许访问的地理范围内"
          contact_wechat := if allowed then none else link.contact_wechat
          title := link.title },
       ⟨update_by_code db.links code link2, db.logs ++ [entry]⟩)

/-- `get_public_link_info` from `app/api/links.py` (lines 409–430): absent or
soft-deleted code → 404, otherwise the public record; no writes. -/
def get_public_link_info (db : DBState) (code : String) :
    Except HTTPError PublicLinkInfo × DBState :=
  match find_link db.links code with
  | none => (Except.error ⟨404, "链接不存在"⟩, db)
  | some link =>
    if link.is_deleted then (Except.error ⟨404, "链接不存在"⟩, db)
    else (Except.ok ⟨link.short_code, link.title, link.is_active, link.location_name⟩, db)

/-- `restore_link` from `app/api/links.py` (lines 334–369), acting on a found
link: permission check, 400 if not deleted, otherwise clear `is_deleted` and
set `is_active` (the handler never touches `is_banned`). -/
def restore_link (user : User) (link : Link) : Except HTTPError Link :=
  if user.role ≠ "super_admin" ∧ link.created_by ≠ user.id then
    Except.error ⟨403, "无权恢复此短链接"⟩
  else if link.is_deleted = false then
    Except.error ⟨400, "该链接未被删除"⟩
  else
    Except.ok { link with is_deleted := false, is_active := true }

/-- `update_link` from `app/api/links.py` (lines 229–289), acting on a found
link. A raised `HTTPException` aborts the request before `db.commit()`, so the
error branch leaves the stored link unchanged; the `is_active` block rejects a
non-super-admin enabling a banned link and lets a super admin setting
`is_active = true` clear `is_banned`. -/
def update_link (user : User) (link : Link) (payload : LinkUpdate) :
    Except HTTPError Link :=
  if link.is_deleted then Except.error ⟨404, "短链接不存在"⟩
  else if user.role ≠ "super_admin" ∧ link.created_by ≠ user.id then
    Except.error ⟨403, "无权修改此短链接"⟩
  else
    let l1 : Link :=
      { link with
        title := if payload.title.isSome then payload.title else link.title
        target_url := payload.target_url.getD link.target_url
        center_lat := payload.center_lat.getD link.center_lat
        center_lng := payload.center_lng.getD link.center_lng
        radius_meters := payload.radius_meters.getD link.radius_meters
        location_name :=
          if payload.location_name.isSome then payload.location_name else link.location_name
        contact_wechat :=
          if payload.contact_wechat.isSome then payload.contact_wechat else link.contact_wechat
        expire_at := if payload.expire_at.isSome then payload.expire_at else link.expire_at
        max_visits := if payload.max_visits.isSome then payload.max_visits else link.max_visits }
    match payload.is_active with
    | none => Except.ok l1
    | some b =>
      if link.is_banned ∧ b = true ∧ user.role ≠ "super_admin" then
        Except.error ⟨403, "此链接已被管理员封禁，无法启用"⟩
      else if user.role = "super_admin" ∧ b = true then
        Except.ok { l1 with is_banned := false, is_active := b }
      else
        Except.ok { l1 with is_active := b }

/-! ### Helper lemmas about the distance function -/

theorem atan2_zero_one : atan2 0 1 = 0 := by
  simp [atan2, Real.arctan_zero]

theorem atan2_one_zero : atan2 1 0 = Real.pi / 2 := by
  simp [atan2]

theorem calculate_distance_self (lat lng : ℝ) :
    calculate_distance lat lng lat lng = 0 := by
  simp [calculate_distance, radians, atan2_zero_one]

theorem calculate_distance_comm (lat1 lng1 lat2 lng2 : ℝ) :
    calculate_distance lat1 lng1 lat2 lng2 = calculate_distance lat2 lng2 lat1 lng1 := by
  have h1 : radians (lat1 - lat2) / 2 = -(radians (lat2 - lat1) / 2) := by
    simp [radians]; ring
  have h2 : radians (lng1 - lng2) / 2 = -(radians (lng2 - lng1) / 2) := by
    simp [radians]; ring
  have ha :
      Real.sin (radians (lat1 - lat2) / 2) ^ 2 +
          Real.cos (radians lat2) * Real.cos (radians lat1) *
            Real.sin (radians (lng1 - lng2) / 2) ^ 2 =
        Real.sin (radians (lat2 - lat1) / 2) ^ 2 +
          Real.cos (radians lat1) * Real.cos (radians lat2) *
            Real.sin (radians (lng2 - lng1) / 2) ^ 2 := by
    rw [h1, h2, Real.sin_neg, Real.sin_neg]; ring
  simp only [calculate_distance]
  rw [ha]

theorem calculate_distance_antipodal :
    calculate_distance 0 180 0 0 = 6371000 * Real.pi := by
  have key : Real.sin (radians ((0 : ℝ) - 180) / 2) ^ 2 = 1 := by
    have h : radians ((0 : ℝ) - 180) / 2 = -(Real.pi / 2) := by
      simp only [radians]; ring
    rw [h, Real.sin_neg, Real.sin_pi_div_two]; ring
  have h00 : radians ((0 : ℝ) - 0) = 0 := by simp [radians]
  have h0 : radians (0 : ℝ) = 0 := by simp [radians]
  simp only [calculate_distance]
  rw [h00, h0, key]
  norm_num [Real.sqrt_one, Real.sqrt_zero, atan2_one_zero]
  ring

theorem one_lt_antipodal_distance : (1 : ℝ) < calculate_distance 0 180 0 0 := by
  rw [calculate_distance_antipodal]
  nlinarith [Real.pi_gt_three]

/-! ### Helper lemmas about the store and the verification handler -/

theorem find_link_cons (code : String) (a : Link) (as : List Link) :
    find_link (a :: as) code =
      if a.short_code == code then some a else find_link as code := by
  cases h : a.short_code == code
  · simp [find_link, List.find?, h]
  · simp [find_link, List.find?, h]

theorem find_update_by_code (links : List Link) (code : String) (l l2 : Link)
    (hfind : find_link links code = some l) (hcode : l2.short_code = l.short_code) :
    find_link (update_by_code links code l2) code = some l2 := by
  induction links with
  | nil => simp [find_link] at hfind
  | cons a as ih =>
    rw [find_link_cons] at hfind
    have hmap : update_by_code (a :: as) code l2 =
        (if a.short_code == code then l2 else a) :: update_by_code as code l2 := by
      simp [update_by_code]
    rw [hmap]
    by_cases h : (a.short_code == code) = true
    · rw [if_pos h] at hfind
      have ha : a = l := Option.some.inj hfind
      rw [if_pos h]
      have h2 : (l2.short_code == code) = true := by
        rw [beq_iff_eq] at h ⊢
        rw [hcode, ← ha]; exact h
      rw [find_link_cons, if_pos h2]
    · rw [if_neg h] at hfind
      rw [if_neg h]
      rw [find_link_cons, if_neg h]
      exact ih hfind

theorem verify_admissible (db : DBState) (code : String) (latitude longitude : ℝ)
    (user_agent ip_address : Option String) (l : Link)
    (hfind : find_link db.links code = some l)
    (hdel : l.is_deleted = false) (hact : l.is_active = true) :
    verify_location db code latitude longitude user_agent ip_address =
      (Except.ok
        { allowed := (is_within_radius latitude longitude l.center_lat l.center_lng
            (l.radius_meters : ℝ)).1
          target_url :=
            if (is_within_radius latitude longitude l.center_lat l.center_lng
                (l.radius_meters : ℝ)).1 then some l.target_url else none
          distance := round2 (is_within_radius latitude longitude l.center_lat l.center_lng
            (l.radius_meters : ℝ)).2
          radius := l.radius_meters
          message :=
            if (is_within_radius latitude longitude l.center_lat l.center_lng
                (l.radius_meters : ℝ)).1 then none else some "您不在允许访问的地理范围内"
          contact_wechat :=
            if (is_within_radius latitude longitude l.center_lat l.center_lng
                (l.radius_meters : ℝ)).1 then none else l.contact_wechat
          title := l.title },
       ⟨update_by_code db.links code
          (record_counters l (is_within_radius latitude longitude l.center_lat l.center_lng
            (l.radius_meters : ℝ)).1),
        db.logs ++ [⟨l.id, latitude, longitude,
          round2 (is_within_radius latitude longitude l.center_lat l.center_lng
            (l.radius_meters : ℝ)).2,
          (is_within_radius latitude longitude l.center_lat l.center_lng
            (l.radius_meters : ℝ)).1, user_agent, ip_address⟩]⟩) := by
  simp [verify_location, hfind, hdel, hact]

/-! ### Concrete records used by witnesses and counterexamples -/

/-- A plain admissible link at the origin with radius 5. -/
def linkW : Link :=
  { id := 1, short_code := "w", title := none, target_url := "https://example.com/t"
    center_lat := 0, center_lng := 0, radius_meters := 5
    location_name := none, contact_wechat := none
    expire_at := none, max_visits := none, created_by := 1
    is_active := true, is_banned := false, is_deleted := false
    visit_count := 0, success_count := 0, denied_count := 0 }

/-- A soft-deleted link. -/
def linkDel : Link :=
  { linkW with id := 2, short_code := "d", is_deleted := true, is_active := false }

/-! ### Claims -/

/-- C5: for every visitor coordinate and link, the geofence verdict is
`allowed = distance ≤ radius_meters` with an inclusive boundary: distance
exactly equal to the radius is admitted, distance beyond it is denied. -/
theorem geofence_boundary_inclusive (vlat vlng clat clng radius : ℝ) :
    ((is_within_radius vlat vlng clat clng radius).1 = true ↔
      calculate_distance vlat vlng clat clng ≤ radius) ∧
    (is_within_radius vlat vlng clat clng radius).2 =
      calculate_distance vlat vlng clat clng ∧
    (calculate_distance vlat vlng clat clng = radius →
      (is_within_radius vlat vlng clat clng radius).1 = true) ∧
    (radius < calculate_distance vlat vlng clat clng →
      (is_within_radius vlat vlng clat clng radius).1 = false) := by
  refine ⟨?_, rfl, ?_, ?_⟩
  · simp [is_within_radius]
  · intro h; simp [is_within_radius, h]
  · intro h; simp [is_within_radius, not_le.mpr h]

/-- Witness for C5: a visitor exactly at the radius (distance 0, radius 0) is
admitted; a visitor beyond the radius (antipodal point, radius 1) is denied. -/
theorem geofence_boundary_inclusive_w :
    (is_within_radius 0 0 0 0 0).1 = true ∧ (is_within_radius 0 180 0 0 1).1 = false :=
  ⟨(geofence_boundary_inclusive 0 0 0 0 0).2.2.1 (calculate_distance_self 0 0),
   (geofence_boundary_inclusive 0 180 0 0 1).2.2.2 one_lt_antipodal_distance⟩

/-- C8: the distance function is symmetric and vanishes on equal points. -/
theorem distance_symmetric_and_zero (latA lngA latB lngB : ℝ) :
    calculate_distance latA lngA latB lngB = calculate_distance latB lngB latA lngA ∧
    calculate_distance latA lngA latA lngA = 0 :=
  ⟨calculate_distance_comm latA lngA latB lngB, calculate_distance_self latA lngA⟩

/-- C4: a recorded verification event increments `visit_count` by one and
exactly one of `success_count`/`denied_count` by one, preserves the invariant
`success_count + denied_count = visit_count`, never decreases a counter, and
appends exactly one access log entry. -/
theorem verify_counters_invariant (db : DBState) (code : String) (lat lng : ℝ)
    (ua ip : Option String) (l : Link)
    (hfind : find_link db.links code = some l)
    (hdel : l.is_deleted = false) (hact : l.is_active = true) :
    ∃ l2, find_link (verify_location db code lat lng ua ip).2.links code = some l2 ∧
      l2.visit_count = l.visit_count + 1 ∧
      l2.success_count + l2.denied_count = l.success_count + l.denied_count + 1 ∧
      l.success_count ≤ l2.success_count ∧
      l.denied_count ≤ l2.denied_count ∧
      l.visit_count ≤ l2.visit_count ∧
      (l.success_count + l.denied_count = l.visit_count →
        l2.success_count + l2.denied_count = l2.visit_count) ∧
      (verify_location db code lat lng ua ip).2.logs.length = db.logs.length + 1 := by
  rw [verify_admissible db code lat lng ua ip l hfind hdel hact]
  refine ⟨record_counters l _, find_update_by_code db.links code l _ hfind rfl, ?_⟩
  cases hb : (is_within_radius lat lng l.center_lat l.center_lng (l.radius_meters : ℝ)).1 <;>
    simp [record_counters, hb] <;> omega

/-- Witness for C4 at a concrete store holding one admissible link. -/
theorem verify_counters_invariant_w :
    ∃ l2, find_link (verify_location ⟨[linkW], []⟩ "w" 0 0 none none).2.links "w" = some l2 ∧
      l2.visit_count = linkW.visit_count + 1 ∧
      l2.success_count + l2.denied_count = linkW.success_count + linkW.denied_count + 1 ∧
      linkW.success_count ≤ l2.success_count ∧
      linkW.denied_count ≤ l2.denied_count ∧
      linkW.visit_count ≤ l2.visit_count ∧
      (linkW.success_count + linkW.denied_count = linkW.visit_count →
        l2.success_count + l2.denied_count = l2.visit_count) ∧
      (verify_location ⟨[linkW], []⟩ "w" 0 0 none none).2.logs.length =
        (DBState.mk [linkW] []).logs.length + 1 :=
  verify_counters_invariant ⟨[linkW], []⟩ "w" 0 0 none none linkW rfl rfl rfl

/-- C6: verification of a soft-deleted link produces exactly the same
rejection (status 404, same detail) and the same unchanged store as
verification of a short code with no record at all. -/
theorem deleted_indistinguishable (db : DBState) (code : String) (lat lng : ℝ)
    (ua ip : Option String) :
    (find_link db.links code = none →
      verify_location db code lat lng ua ip = (Except.error ⟨404, "短链接不存在"⟩, db)) ∧
    (∀ l, find_link db.links code = some l → l.is_deleted = true →
      verify_location db code lat lng ua ip = (Except.error ⟨404, "短链接不存在"⟩, db)) := by
  constructor
  · intro h; simp [verify_location, h]
  · intro l h hd; simp [verify_location, h, hd]

/-- Witness for C6: an empty store and a store holding only a deleted link. -/
theorem deleted_indistinguishable_w :
    verify_location ⟨[], []⟩ "x" 0 0 none none =
      (Except.error ⟨404, "短链接不存在"⟩, (⟨[], []⟩ : DBState)) ∧
    verify_location ⟨[linkDel], []⟩ "d" 0 0 none none =
      (Except.error ⟨404, "短链接不存在"⟩, (⟨[linkDel], []⟩ : DBState)) :=
  ⟨(deleted_indistinguishable ⟨[], []⟩ "x" 0 0 none none).1 rfl,
   (deleted_indistinguishable ⟨[linkDel], []⟩ "d" 0 0 none none).2 linkDel rfl rfl⟩

/-- C9: `publicInfo` returns the public record of an existing non-deleted
link and a 404 otherwise (also for deleted links), and never changes the
store. -/
theorem public_info_spec (db : DBState) (code : String) :
    (get_public_link_info db code).2 = db ∧
    (find_link db.links code = none →
      (get_public_link_info db code).1 = Except.error ⟨404, "链接不存在"⟩) ∧
    (∀ l, find_link db.links code = some l → l.is_deleted = true →
      (get_public_link_info db code).1 = Except.error ⟨404, "链接不存在"⟩) ∧
    (∀ l, find_link db.links code = some l → l.is_deleted = false →
      (get_public_link_info db code).1 =
        Except.ok ⟨l.short_code, l.title, l.is_active, l.location_name⟩) := by
  refine ⟨?_, ?_, ?_, ?_⟩
  · cases h : find_link db.links code with
    | none => simp [get_public_link_info, h]
    | some l => by_cases hd : l.is_deleted = true <;> simp [get_public_link_info, h, hd]
  · intro h; simp [get_public_link_info, h]
  · intro l h hd; simp [get_public_link_info, h, hd]
  · intro l h hd; simp [get_public_link_info, h, hd]

/-- Witness for C9 at a store holding one non-deleted link. -/
theorem public_info_spec_w :
    (get_public_link_info ⟨[linkW], []⟩ "w").2 = (⟨[linkW], []⟩ : DBState) ∧
    (get_public_link_info ⟨[linkW], []⟩ "w").1 =
      Except.ok ⟨linkW.short_code, linkW.title, linkW.is_active, linkW.location_name⟩ :=
  ⟨(public_info_spec ⟨[linkW], []⟩ "w").1,
   (public_info_spec ⟨[linkW], []⟩ "w").2.2.2 linkW rfl rfl⟩

/-- The super admin user. -/
def superU : User := ⟨1, "super_admin"⟩

/-- An ordinary admin, owner of the banned links below. -/
def ownerU : User := ⟨2, "admin"⟩

/-- A banned, disabled link owned by `ownerU`. -/
def linkBanned : Link :=
  { linkW with
    id := 3
    short_code := "b"
    created_by := 2
    is_active := false
    is_banned := true }

/-- An update payload that only sets `is_active := true`. -/
def payloadActivate : LinkUpdate :=
  { title := none, target_url := none, center_lat := none, center_lng := none
    radius_meters := none, location_name := none, contact_wechat := none
    is_active := some true, expire_at := none, max_visits := none }

/-- C10: a super admin setting `is_active = true` implicitly clears
`is_banned`; a non-super-admin setting `is_active = true` on a banned link is
rejected with a 403 error (so the stored link is never committed). -/
theorem update_active_ban_interaction (user : User) (link : Link) (payload : LinkUpdate) :
    (user.role = "super_admin" → payload.is_active = some true → link.is_deleted = false →
      ∃ l2, update_link user link payload = Except.ok l2 ∧
        l2.is_banned = false ∧ l2.is_active = true) ∧
    (user.role ≠ "super_admin" → link.created_by = user.id → link.is_deleted = false →
      link.is_banned = true → payload.is_active = some true →
      update_link user link payload =
        Except.error ⟨403, "此链接已被管理员封禁，无法启用"⟩) := by
  constructor
  · intro hrole hact hdel
    simp [update_link, hdel, hrole, hact]
  · intro hrole hcb hdel hban hact
    simp [update_link, hdel, hact, hban, hrole, hcb]

/-- Witness for C10: the super admin unbans by activating; the owner of a
banned link cannot activate it. -/
theorem update_active_ban_interaction_w :
    (∃ l2, update_link superU linkBanned payloadActivate = Except.ok l2 ∧
      l2.is_banned = false ∧ l2.is_active = true) ∧
    update_link ownerU linkBanned payloadActivate =
      Except.error ⟨403, "此链接已被管理员封禁，无法启用"⟩ :=
  ⟨(update_active_ban_interaction superU linkBanned payloadActivate).1 rfl rfl rfl,
   (update_active_ban_interaction ownerU linkBanned payloadActivate).2
     (by decide) (by decide) (by simp [linkBanned, linkW]) (by simp [linkBanned, linkW]) rfl⟩

/-- C7 counterexample: a denied visitor of a link with no fallback contact
still receives a non-null `message`, so "message present iff not allowed and
the link specifies a fallback contact" fails on the code. -/
def linkNC : Link :=
  { linkW with id := 4, short_code := "n", radius_meters := 1 }

/-- C7 is refuted at `linkNC`: the verification is denied, the link has no
fallback contact, yet the response carries a message. -/
theorem verify_message_without_contact :
    ∃ r, (verify_location ⟨[linkNC], []⟩ "n" 0 180 none none).1 = Except.ok r ∧
      r.allowed = false ∧ r.message = some "您不在允许访问的地理范围内" ∧
      r.contact_wechat = none ∧ linkNC.contact_wechat = none ∧
      ¬ (r.message.isSome ↔ (r.allowed = false ∧ linkNC.contact_wechat.isSome)) := by
  have hb : (is_within_radius 0 180 0 0 (1 : ℝ)).1 = false := by
    simp [is_within_radius, not_le.mpr one_lt_antipodal_distance]
  rw [verify_admissible ⟨[linkNC], []⟩ "n" 0 180 none none linkNC rfl rfl rfl]
  refine ⟨_, rfl, ?_⟩
  simp [linkNC, linkW, hb]

/-- C7 (amended): in every successful verification response, `target_url` is
present iff allowed; `message` is present iff not allowed; `contact_wechat`
is present iff not allowed and the link specifies a fallback contact. -/
theorem verify_response_fields (db : DBState) (code : String) (lat lng : ℝ)
    (ua ip : Option String) (l : Link)
    (hfind : find_link db.links code = some l)
    (hdel : l.is_deleted = false) (hact : l.is_active = true) :
    ∃ r, (verify_location db code lat lng ua ip).1 = Except.ok r ∧
      (r.target_url.isSome ↔ r.allowed = true) ∧
      (r.message.isSome ↔ r.allowed = false) ∧
      (r.contact_wechat.isSome ↔ (r.allowed = false ∧ l.contact_wechat.isSome)) := by
  rw [verify_admissible db code lat lng ua ip l hfind hdel hact]
  refine ⟨_, rfl, ?_, ?_, ?_⟩ <;>
    cases hb : (is_within_radius lat lng l.center_lat l.center_lng (l.radius_meters : ℝ)).1 <;>
      simp [hb]

/-- Witness for C7 (amended) at a concrete admissible link. -/
theorem verify_response_fields_w :
    ∃ r, (verify_location ⟨[linkW], []⟩ "w" 0 0 none none).1 = Except.ok r ∧
      (r.target_url.isSome ↔ r.allowed = true) ∧
      (r.message.isSome ↔ r.allowed = false) ∧
      (r.contact_wechat.isSome ↔ (r.allowed = false ∧ linkW.contact_wechat.isSome)) :=
  verify_response_fields ⟨[linkW], []⟩ "w" 0 0 none none linkW rfl rfl rfl

/-- An active link whose `expire_at` (epoch seconds) lies in the past for any
positive current time. -/
def linkExp : Link :=
  { linkW with
    id := 5
    short_code := "e"
    expire_at := some 0 }

/-- C1 (code bug): `verify_location` never consults `expire_at`. For the
expired link `linkExp` (expire_at = 0, so in the past at any now > 0) the
verification is granted rather than rejected as Expired, `visit_count` and
`success_count` are incremented, and an access log entry is appended. -/
theorem verify_ignores_expiry :
    linkExp.expire_at = some 0 ∧ linkExp.is_active = true ∧
    (∃ r, (verify_location ⟨[linkExp], []⟩ "e" 0 0 none none).1 = Except.ok r ∧
      r.allowed = true) ∧
    find_link (verify_location ⟨[linkExp], []⟩ "e" 0 0 none none).2.links "e" =
      some { linkExp with visit_count := 1, success_count := 1 } ∧
    (verify_location ⟨[linkExp], []⟩ "e" 0 0 none none).2.logs.length = 1 := by
  have h0 : calculate_distance 0 0 0 0 ≤ (5 : ℝ) := by
    rw [calculate_distance_self]; norm_num
  rw [verify_admissible ⟨[linkExp], []⟩ "e" 0 0 none none linkExp rfl rfl rfl]
  refine ⟨rfl, rfl, ⟨_, rfl, ?_⟩, ?_, ?_⟩
  · simp [linkExp, linkW, is_within_radius, h0]
  · simp [linkExp, linkW, is_within_radius, h0, record_counters, update_by_code,
      find_link, List.find?]
  · simp

/-- An active link whose visit cap is already reached:
`max_visits = 5`, `visit_count = 5`. -/
def linkCap : Link :=
  { linkW with
    id := 6
    short_code := "m"
    max_visits := some 5
    visit_count := 5
    success_count := 3
    denied_count := 2 }

/-- C2 (code bug): `verify_location` never consults `max_visits`. For
`linkCap` (cap 5 reached) the verification is granted rather than rejected as
VisitCapReached, and the counters move past the cap to `visit_count = 6`. -/
theorem verify_ignores_visit_cap :
    linkCap.max_visits = some 5 ∧ linkCap.visit_count = 5 ∧ linkCap.is_active = true ∧
    (∃ r, (verify_location ⟨[linkCap], []⟩ "m" 0 0 none none).1 = Except.ok r ∧
      r.allowed = true) ∧
    find_link (verify_location ⟨[linkCap], []⟩ "m" 0 0 none none).2.links "m" =
      some { linkCap with visit_count := 6, success_count := 4 } ∧
    (verify_location ⟨[linkCap], []⟩ "m" 0 0 none none).2.logs.length = 1 := by
  have h0 : calculate_distance 0 0 0 0 ≤ (5 : ℝ) := by
    rw [calculate_distance_self]; norm_num
  rw [verify_admissible ⟨[linkCap], []⟩ "m" 0 0 none none linkCap rfl rfl rfl]
  refine ⟨rfl, rfl, rfl, ⟨_, rfl, ?_⟩, ?_, ?_⟩
  · simp [linkCap, linkW, is_within_radius, h0]
  · simp [linkCap, linkW, is_within_radius, h0, record_counters, update_by_code,
      find_link, List.find?]
  · simp

/-- A banned link that was afterwards soft-deleted, owned by `ownerU`. -/
def linkBanDel : Link :=
  { linkW with
    id := 7
    short_code := "r"
    created_by := 2
    is_active := false
    is_banned := true
    is_deleted := true }

/-- C3 (code bug): restoring clears `deleted`, re-sets `active` and leaves
`banned` set — but the restored banned link is then admitted by
`verify_location`, which gates only on `is_active`; the ban does not keep the
link inaccessible after restore. -/
theorem restore_banned_link_admits :
    ∃ l2, restore_link ownerU linkBanDel = Except.ok l2 ∧
      l2.is_banned = true ∧ l2.is_deleted = false ∧ l2.is_active = true ∧
      ∃ r, (verify_location ⟨[l2], []⟩ "r" 0 0 none none).1 = Except.ok r ∧
        r.allowed = true := by
  have hrest : restore_link ownerU linkBanDel =
      Except.ok { linkBanDel with is_deleted := false, is_active := true } := by
    simp [restore_link, ownerU, linkBanDel, linkW]
  have h0 : calculate_distance 0 0 0 0 ≤ (5 : ℝ) := by
    rw [calculate_distance_self]; norm_num
  refine ⟨{ linkBanDel with is_deleted := false, is_active := true }, hrest,
    by simp [linkBanDel, linkW], rfl, rfl, ?_⟩
  rw [verify_admissible ⟨[{ linkBanDel with is_deleted := false, is_active := true }], []⟩
    "r" 0 0 none none { linkBanDel with is_deleted := false, is_active := true } rfl rfl rfl]
  refine ⟨_, rfl, ?_⟩
  simp [linkBanDel, linkW, is_within_radius, h0]

end
